import Mathlib

/-!
Verification development for a small tutoring web service.

The service keeps an in-memory map from user ids to student profiles
(a proficiency score plus a derived teaching policy), scores a fixed
three-question diagnostic, builds a templated prompt for a hosted
generation model, optionally fetches search results or news headlines,
and optionally machine-translates the answer.

Strings are embedded as `List Char`; Python string operations
(lowercasing, substring membership, whitespace splitting, stripping,
integer parsing) are modelled on that representation.  Scores use `ℚ`
(all arithmetic in the program is exact on hundredths, so rationals are
a faithful model of the Python floats involved).  Every external
collaborator (clock, search provider, generation model, translator,
news provider) is an explicit oracle record, so the orchestration logic
is a pure function of the request, the store, and the oracle.
-/

namespace AITutor

/-- Strings, embedded as lists of characters. -/
abbrev Str := List Char

/-- Literal string helper. -/
def lit (s : String) : Str := s.toList

/-- Python `str.lower()` (ASCII model; keyword matching in the program is ASCII). -/
def pyLower (s : Str) : Str := s.map Char.toLower

/-- Python `needle in hay` substring membership. -/
def pyIn (needle hay : Str) : Bool := decide (needle <:+: hay)

/-- Python whitespace (the ASCII part: space, tab, newline, carriage return,
vertical tab, form feed). -/
def pyIsSpace (c : Char) : Bool :=
  c = ' ' || c = '\t' || c = '\n' || c = '\r' || c = Char.ofNat 11 || c = Char.ofNat 12

/-- Token counter for Python `len(s.split())`: counts maximal runs of
non-whitespace characters.  The Boolean argument records whether we are
currently inside a token. -/
def countTokensAux : Bool → Str → Nat
  | _, [] => 0
  | inTok, c :: rest =>
    if pyIsSpace c then countTokensAux false rest
    else (if inTok then 0 else 1) + countTokensAux true rest

/-- Number of whitespace-separated tokens, as in Python `len(s.split())`. -/
def countTokens (s : Str) : Nat := countTokensAux false s

/-- Drop leading whitespace (left part of Python `str.strip()`). -/
def lstrip (s : Str) : Str := s.dropWhile pyIsSpace

/-- Drop trailing whitespace (right part of Python `str.strip()`). -/
def rstrip (s : Str) : Str := (s.reverse.dropWhile pyIsSpace).reverse

/-- Python `str.strip()`. -/
def pyStrip (s : Str) : Str := rstrip (lstrip s)

/-- Numeric value of an ASCII digit. -/
def digitVal (c : Char) : Nat := c.toNat - 48

/-- Digits of an integer literal after the first digit; Python allows single
underscores between digits (`int("1_0") = 10`) but not trailing or doubled
underscores. -/
def digitsAux (acc : Nat) : Str → Option Nat
  | [] => some acc
  | '_' :: rest =>
    match rest with
    | [] => none
    | c :: r => if c.isDigit then digitsAux (acc * 10 + digitVal c) r else none
  | c :: rest => if c.isDigit then digitsAux (acc * 10 + digitVal c) rest else none

/-- A nonempty ASCII digit string (with Python's underscore rules), or `none`. -/
def parseDigits : Str → Option Nat
  | [] => none
  | c :: rest => if c.isDigit then digitsAux (digitVal c) rest else none

/-- Python `int(s)` on strings (ASCII model): strip surrounding whitespace,
optional sign, nonempty digit string; `none` models `ValueError`. -/
def pyInt (s : Str) : Option Int :=
  match pyStrip s with
  | '+' :: rest => (parseDigits rest).map (fun n => (n : Int))
  | '-' :: rest => (parseDigits rest).map (fun n => -(n : Int))
  | t => (parseDigits t).map (fun n => (n : Int))

/-- Python `round(x, 2)`.  Every value the scorer rounds is an exact multiple
of 1/100, so the tie-breaking convention is irrelevant here. -/
def round2 (x : ℚ) : ℚ := ((round (x * 100) : ℤ) : ℚ) / 100

/-- The diagnostic answers dictionary: each key may be absent
(`answers.get(k, default)` in the source). -/
structure Answers where
  q1 : Option Str
  q2 : Option Str
  q3 : Option Str

/-- Keyword set for question 1. -/
def q1Keywords : List Str :=
  [lit "energy", lit "sun", lit "food", lit "glucose", lit "convert"]

/-- Keyword set for question 2. -/
def q2Keywords : List Str :=
  [lit "acceleration", lit "increases", lit "increase", lit "more"]

/-- `score_diagnostic` from `app.py`: keyword / token-count credit for q1 and
q2, confidence credit for q3, capped and rounded. -/
def score_diagnostic (answers : Answers) : ℚ :=
  let a1 := pyLower (answers.q1.getD [])
  let s1 : ℚ :=
    if q1Keywords.any (fun w => pyIn w a1) then 0.35
    else if 3 ≤ countTokens a1 then 0.15 else 0
  let a2 := pyLower (answers.q2.getD [])
  let s2 : ℚ :=
    if q2Keywords.any (fun w => pyIn w a2) then 0.35
    else if 2 ≤ countTokens a2 then 0.1 else 0
  let conf_score : ℚ :=
    match pyInt (answers.q3.getD (lit "3")) with
    | some conf => ((max 0 (min 5 conf) : ℤ) : ℚ) / 5
    | none => 0.6
  min 1 (round2 (s1 + s2 + 0.3 * conf_score))

/-- A teaching policy record. -/
structure Policy where
  style : Str
  depth : Str
  examples : Nat
  checks : Bool
deriving DecidableEq

/-- `policy_map` from `app.py`: three-tier threshold lookup. -/
def policy_map (proficiency : ℚ) : Policy :=
  if proficiency < 0.33 then ⟨lit "step_by_step", lit "deep", 2, true⟩
  else if proficiency < 0.7 then ⟨lit "balanced", lit "medium", 1, true⟩
  else ⟨lit "concise", lit "shallow", 1, false⟩

/-- A stored student profile (the dictionaries the program stores always have
exactly these four keys). -/
structure Profile where
  user_id : Str
  proficiency : ℚ
  policy : Policy
  language : Str
deriving DecidableEq

/-- A search result (title/link/snippet). -/
structure SourceResult where
  title : Str
  link : Str
  snippet : Str
deriving DecidableEq

/-- A news article as consumed by the formatter: the `title` and the nested
`source.name` fields may each be absent. -/
structure Article where
  title : Option Str
  sourceName : Option Str

/-- A wall-clock reading, as the components `strftime` formats. -/
structure PyDateTime where
  year : Nat
  month : Nat
  day : Nat
  hour : Nat
  minute : Nat
  second : Nat

/-- The external collaborators of one request: clock, search provider,
generation model, translation provider, news provider.  Each fallible call
is an `Except`, the `error` side modelling a raised exception. -/
structure Oracle where
  now : PyDateTime
  searchKeysPresent : Bool
  searchCall : Str → Nat → Except Str (List SourceResult)
  gen : Str → Except Str Str
  translator : Str → Str → Except Unit Str
  newsConfigured : Bool
  getEverything : Str → Str → Except Str (List Article)
  getTopHeadlines : Str → Str → Str → Except Str (List Article)

/-- `google_search` from `app.py`: empty on missing credentials, empty on any
provider exception, otherwise the provider's items. -/
def google_search (o : Oracle) (query : Str) (num_results : Nat) : List SourceResult :=
  if !o.searchKeysPresent then []
  else
    match o.searchCall query num_results with
    | .ok items => items
    | .error _ => []

/-- Left-pad a number to two digits (strftime `%m`, `%d`, `%H`, `%M`, `%S`). -/
def pad2 (n : Nat) : Str :=
  if n < 10 then '0' :: Nat.toDigits 10 n else Nat.toDigits 10 n

/-- Left-pad a year to four digits (strftime `%Y`). -/
def pad4 (n : Nat) : Str :=
  List.replicate (4 - (Nat.toDigits 10 n).length) '0' ++ Nat.toDigits 10 n

/-- The strftime pattern `%Y-%m-%d %H:%M:%S`. -/
def fmtDateTime (dt : PyDateTime) : Str :=
  pad4 dt.year ++ lit "-" ++ pad2 dt.month ++ lit "-" ++ pad2 dt.day ++ lit " "
    ++ pad2 dt.hour ++ lit ":" ++ pad2 dt.minute ++ lit ":" ++ pad2 dt.second

/-- `get_current_datetime` from `app.py`. -/
def get_current_datetime (o : Oracle) : Str :=
  lit "Current date and time is: " ++ fmtDateTime o.now

/-- Join a list of strings with a separator (Python `sep.join`). -/
def joinWith (sep : Str) : List Str → Str
  | [] => []
  | [x] => x
  | x :: xs => x ++ sep ++ joinWith sep xs

/-- One formatted headline line. -/
def formatArticle (i : Nat) (a : Article) : Str :=
  lit "**" ++ Nat.toDigits 10 i ++ lit ". " ++ a.title.getD (lit "No Title")
    ++ lit "** (Source: " ++ a.sourceName.getD (lit "Unknown Source") ++ lit ")"

/-- Format articles numbered from `i` upward. -/
def enumFormat (i : Nat) : List Article → List Str
  | [] => []
  | a :: rest => formatArticle i a :: enumFormat (i + 1) rest

/-- `get_real_time_news` from `app.py`: configuration check, primary fetch,
one English/US fallback fetch when the first result set is empty, numbered
formatting of the first five articles; any provider exception degrades to a
textual error message returned as a normal reply string. -/
def get_real_time_news (o : Oracle) (query : Option Str) (country lang category : Str) : Str :=
  if !o.newsConfigured then lit "News API key not configured. Cannot fetch news."
  else
    let fetched : Except Str (List Article) :=
      match query with
      | some q => o.getEverything q lang
      | none => o.getTopHeadlines country category lang
    match fetched with
    | .error e => lit "An error occurred while fetching news: " ++ e
    | .ok articles =>
      match (if articles.isEmpty
             then o.getTopHeadlines (lit "us") (lit "general") (lit "en")
             else .ok articles : Except Str (List Article)) with
      | .error e => lit "An error occurred while fetching news: " ++ e
      | .ok articles2 =>
        if articles2.isEmpty then lit "No news headlines found for your request."
        else lit "Top Headlines:\n" ++ joinWith (lit "\n") (enumFormat 1 (articles2.take 5))

/-- The optional "Sources:" block of the prompt template. -/
def sourcesBlock (sources : List SourceResult) : Str :=
  if sources.isEmpty then []
  else
    lit "\n\nSources:\n"
      ++ joinWith (lit "\n") (sources.map (fun s => lit "- " ++ s.title ++ lit ": " ++ s.link))

/-- Python `f"{x:.2f}"` on the exact rational model. -/
def fmt2 (q : ℚ) : Str :=
  let n : Int := round (q * 100)
  (if n < 0 then lit "-" else [])
    ++ Nat.toDigits 10 (n.natAbs / 100) ++ lit "." ++ pad2 (n.natAbs % 100)

/-- `build_prompt` from `app.py`: the fixed template with the profile fields,
the question, and the optional sources block interpolated, then stripped.
(The source reads the profile fields with `.get` defaults; stored profiles
always carry all four keys, which the `Profile` structure makes intrinsic.) -/
def build_prompt (student_profile : Profile) (user_question : Str)
    (sources : List SourceResult) : Str :=
  let style := student_profile.policy.style
  let proficiency := student_profile.proficiency
  let lang := student_profile.language
  let sources_block := sourcesBlock sources
  pyStrip (
    lit "\nYou are Zyvora, a friendly human-like tutor. StudentProfile: proficiency="
      ++ fmt2 proficiency ++ lit ", style=" ++ style ++ lit ", language=" ++ lang
      ++ lit ".\nBe warm, encouraging, and adapt explanations to the student's learning rate. Use these rules:\n- If style == step_by_step: give numbered steps, short examples after each step, and ask a one-line check question at the end.\n- If style == balanced: give a clear explanation, one worked example, and a one-sentence recap.\n- If style == concise: give 2-3 concise sentences and a short takeaway.\n\nConversation:\nStudent asked: "
      ++ user_question ++ lit "\n" ++ sources_block
      ++ lit "\n\nAnswer in a clear, friendly human tone. If the user language is not English, answer in English first then the client will handle translation if requested.\n")

/-- The prompt with the sources section omitted entirely, written out with no
sources machinery at all; stated from the specification's description of the
empty-sources rendering, for comparison with `build_prompt`. -/
def prompt_without_sources (student_profile : Profile) (user_question : Str) : Str :=
  pyStrip (
    lit "\nYou are Zyvora, a friendly human-like tutor. StudentProfile: proficiency="
      ++ fmt2 student_profile.proficiency ++ lit ", style=" ++ student_profile.policy.style
      ++ lit ", language=" ++ student_profile.language
      ++ lit ".\nBe warm, encouraging, and adapt explanations to the student's learning rate. Use these rules:\n- If style == step_by_step: give numbered steps, short examples after each step, and ask a one-line check question at the end.\n- If style == balanced: give a clear explanation, one worked example, and a one-sentence recap.\n- If style == concise: give 2-3 concise sentences and a short takeaway.\n\nConversation:\nStudent asked: "
      ++ user_question ++ lit "\n"
      ++ lit "\n\nAnswer in a clear, friendly human tone. If the user language is not English, answer in English first then the client will handle translation if requested.\n")

/-- `translate` from `app.py`: identity for empty/`"en"` targets, provider
output on success, annotated passthrough on provider failure. -/
def translate (o : Oracle) (text : Str) (target_lang : Str) : Str :=
  if target_lang.isEmpty || target_lang == lit "en" then text
  else
    match o.translator text target_lang with
    | .ok t => t
    | .error _ =>
      text ++ lit "\n\n(Translation to " ++ target_lang ++ lit " not available.)"

/-- The in-memory profile store `PROFILES` (a Python dict keyed by user id). -/
abbrev Store := List (Str × Profile)

/-- Dictionary lookup `PROFILES.get(user_id)`. -/
def getProfile (s : Store) (uid : Str) : Option Profile :=
  (s.find? (fun e => e.1 == uid)).map (fun e => e.2)

/-- Dictionary deletion `PROFILES.pop(user_id, None)`. -/
def delProfile (s : Store) (uid : Str) : Store :=
  s.filter (fun e => !(e.1 == uid))

/-- Dictionary assignment `PROFILES[user_id] = p`. -/
def putProfile (s : Store) (uid : Str) (p : Profile) : Store :=
  (uid, p) :: delProfile s uid

/-- The transient default profile synthesized for an unseen user id. -/
def defaultProfile (user_id lang : Str) : Profile :=
  { user_id := user_id, proficiency := 0.5, policy := policy_map 0.5, language := lang }

/-- Substrings that trigger a web search. -/
def searchTriggers : List Str :=
  [lit "explain", lit "what is", lit "how", lit "define", lit "show", lit "solve"]

/-- The time/date branch trigger, on the lower-cased message. -/
def timeTrigger (message_lower : Str) : Bool :=
  pyIn (lit "time") message_lower || pyIn (lit "date") message_lower

/-- The news branch trigger, on the lower-cased message. -/
def newsTrigger (message_lower : Str) : Bool :=
  pyIn (lit "news") message_lower || pyIn (lit "headlines") message_lower

/-- The success payload of `generate_reply`. -/
structure ReplyOk where
  reply : Str
  reply_en : Str
  sources : List SourceResult
  profile : Profile
deriving DecidableEq

/-- A chat result: either the four-field success record or the single-field
error record returned on generation failure. -/
inductive ReplyResult where
  | ok : ReplyOk → ReplyResult
  | error : Str → ReplyResult
deriving DecidableEq

/-- The profile used by a request: the stored one, else the transient default. -/
def request_profile (store : Store) (user_id lang : Str) : Profile :=
  (getProfile store user_id).getD (defaultProfile user_id lang)

/-- The sources retrieved for a request on the general path. -/
def request_sources (o : Oracle) (message : Str) : List SourceResult :=
  if searchTriggers.any (fun w => pyIn w (pyLower message)) then google_search o message 3
  else []

/-- News-branch category dispatch of `generate_reply`. -/
def newsReply (o : Oracle) (message_lower lang : Str) : Str :=
  if pyIn (lit "tech news") message_lower || pyIn (lit "technology news") message_lower then
    get_real_time_news o none (lit "in") lang (lit "technology")
  else if pyIn (lit "business news") message_lower then
    get_real_time_news o none (lit "in") lang (lit "business")
  else
    get_real_time_news o none (lit "in") lang (lit "general")

/-- The Markdown source-citation block appended to a successful generation. -/
def source_links (sources : List SourceResult) : Str :=
  lit "\n\n**Sources:**\n"
    ++ joinWith (lit "\n")
        (sources.map (fun s => lit "- **[" ++ s.title ++ lit "](" ++ s.link ++ lit ")**"))

/-- `generate_reply` from `app.py`: profile resolution, the time/date branch,
the news branch, then the search/prompt/generation pipeline with translation;
generation failure is the only error surfaced.  The source's local variables
(`profile`, `message_lower`, `sources`, `reply_en`, `reply`) are the named
definitions `request_profile`, `pyLower message`, `request_sources`, and the
inlined expressions below. -/
def generate_reply (o : Oracle) (store : Store) (user_id message lang : Str) : ReplyResult :=
  if timeTrigger (pyLower message) then
    .ok ⟨translate o (get_current_datetime o) (request_profile store user_id lang).language,
         get_current_datetime o, [], request_profile store user_id lang⟩
  else if newsTrigger (pyLower message) then
    .ok ⟨newsReply o (pyLower message) lang, newsReply o (pyLower message) lang, [],
         request_profile store user_id lang⟩
  else
    match o.gen (build_prompt (request_profile store user_id lang) message
        (request_sources o message)) with
    | .error e => .error e
    | .ok text =>
      .ok ⟨translate o
             (pyStrip text ++ (if (request_sources o message).isEmpty then []
                else source_links (request_sources o message)))
             (request_profile store user_id lang).language,
           pyStrip text ++ (if (request_sources o message).isEmpty then []
              else source_links (request_sources o message)),
           request_sources o message, request_profile store user_id lang⟩

/-- The body of a `POST /diagnostic` request (each key may be absent). -/
structure DiagnosticPayload where
  user_id : Option Str
  answers : Answers
  lang : Option Str

/-- The `/diagnostic` route: score, derive the policy, store the profile. -/
def diagnostic_route (store : Store) (payload : DiagnosticPayload) : Store × Profile :=
  let user_id := payload.user_id.getD (lit "anon")
  let prof := score_diagnostic payload.answers
  let policy := policy_map prof
  let profile : Profile :=
    { user_id := user_id, proficiency := prof, policy := policy,
      language := payload.lang.getD (lit "en") }
  (putProfile store user_id profile, profile)

/-- The `DELETE /profile/<user_id>` route's effect on the store. -/
def profile_delete (store : Store) (uid : Str) : Store := delProfile store uid

/-- Stores reachable from the empty store by the service's operations.  The
chat route calls `generate_reply`, which reads but never writes `PROFILES`,
and the profile `GET` route is also read-only; both leave the store as is. -/
inductive Reachable : Store → Prop where
  | init : Reachable []
  | diag : ∀ {s : Store} (payload : DiagnosticPayload),
      Reachable s → Reachable (diagnostic_route s payload).1
  | chat : ∀ {s : Store} (o : Oracle) (user_id message lang : Str),
      Reachable s → Reachable s
  | del : ∀ {s : Store} (uid : Str), Reachable s → Reachable (profile_delete s uid)

/-- The profile-store invariant: every stored policy is derived from the
stored proficiency. -/
def StoreInv (s : Store) : Prop :=
  ∀ e ∈ s, e.2.policy = policy_map e.2.proficiency

namespace AiModel

/-- `score_diagnostic` as duplicated in `models/ai_model.py`. -/
def score_diagnostic (answers : Answers) : ℚ :=
  let a1 := pyLower (answers.q1.getD [])
  let s1 : ℚ :=
    if q1Keywords.any (fun w => pyIn w a1) then 0.35
    else if 3 ≤ countTokens a1 then 0.15 else 0
  let a2 := pyLower (answers.q2.getD [])
  let s2 : ℚ :=
    if q2Keywords.any (fun w => pyIn w a2) then 0.35
    else if 2 ≤ countTokens a2 then 0.1 else 0
  let conf_score : ℚ :=
    match pyInt (answers.q3.getD (lit "3")) with
    | some conf => ((max 0 (min 5 conf) : ℤ) : ℚ) / 5
    | none => 0.6
  min 1 (round2 (s1 + s2 + 0.3 * conf_score))

/-- `policy_map` as duplicated in `models/ai_model.py`. -/
def policy_map (proficiency : ℚ) : Policy :=
  if proficiency < 0.33 then ⟨lit "step_by_step", lit "deep", 2, true⟩
  else if proficiency < 0.7 then ⟨lit "balanced", lit "medium", 1, true⟩
  else ⟨lit "concise", lit "shallow", 1, false⟩

end AiModel

/-- A fixture oracle on which every collaborator call fails. -/
def oracle0 : Oracle where
  now := ⟨2025, 3, 7, 9, 30, 5⟩
  searchKeysPresent := false
  searchCall := fun _ _ => .error (lit "search down")
  gen := fun _ => .error (lit "boom")
  translator := fun _ _ => .error ()
  newsConfigured := false
  getEverything := fun _ _ => .error (lit "news down")
  getTopHeadlines := fun _ _ _ => .error (lit "news down")

/-- A fixture oracle whose generation call succeeds. -/
def oracle1 : Oracle :=
  { oracle0 with gen := fun _ => .ok (lit " Hello there. ") }

/-- The diagnostic example from the specification:
`q1 = "sun gives energy"`, `q2 = "increase"`, `q3 = "4"`. -/
def demoAnswers : Answers :=
  ⟨some (lit "sun gives energy"), some (lit "increase"), some (lit "4")⟩

/-- A fixture store holding one profile derived from `demoAnswers`. -/
def demoStore : Store :=
  (diagnostic_route [] ⟨some (lit "u1"), demoAnswers, some (lit "en")⟩).1

/-- The total the specification describes for the diagnostic scorer, before
capping and rounding. -/
def diag_total (answers : Answers) : ℚ :=
  (let a1 := pyLower (answers.q1.getD [])
   if q1Keywords.any (fun w => pyIn w a1) then (0.35 : ℚ)
   else if 3 ≤ countTokens a1 then 0.15 else 0)
  + (let a2 := pyLower (answers.q2.getD [])
     if q2Keywords.any (fun w => pyIn w a2) then (0.35 : ℚ)
     else if 2 ≤ countTokens a2 then 0.1 else 0)
  + 0.3 * (match pyInt (answers.q3.getD (lit "3")) with
           | some conf => ((max 0 (min 5 conf) : ℤ) : ℚ) / 5
           | none => 0.6)

/-! ## Theorems -/

theorem round2_nonneg {x : ℚ} (h : 0 ≤ x) : 0 ≤ round2 x := by
  unfold round2
  have hz : (0 : ℤ) ≤ round (x * 100) := by
    rw [round_eq]
    exact Int.le_floor.mpr (by push_cast; linarith)
  have : (0 : ℚ) ≤ ((round (x * 100) : ℤ) : ℚ) := by exact_mod_cast hz
  linarith

theorem diag_total_nonneg (a : Answers) : 0 ≤ diag_total a := by
  unfold diag_total
  have h1 : (0 : ℚ) ≤
      (if q1Keywords.any (fun w => pyIn w (pyLower (a.q1.getD []))) then (0.35 : ℚ)
       else if 3 ≤ countTokens (pyLower (a.q1.getD [])) then 0.15 else 0) := by
    split_ifs <;> norm_num
  have h2 : (0 : ℚ) ≤
      (if q2Keywords.any (fun w => pyIn w (pyLower (a.q2.getD []))) then (0.35 : ℚ)
       else if 2 ≤ countTokens (pyLower (a.q2.getD [])) then 0.1 else 0) := by
    split_ifs <;> norm_num
  have h3 : (0 : ℚ) ≤
      (match pyInt (a.q3.getD (lit "3")) with
       | some conf => ((max 0 (min 5 conf) : ℤ) : ℚ) / 5
       | none => 0.6) := by
    cases hq : pyInt (a.q3.getD (lit "3")) with
    | none => norm_num
    | some conf =>
      have hz : (0 : ℤ) ≤ max 0 (min 5 conf) := le_max_left 0 _
      have h0 : (0 : ℚ) ≤ ((max 0 (min 5 conf) : ℤ) : ℚ) := by exact_mod_cast hz
      exact div_nonneg h0 (by norm_num)
  have h3' : (0 : ℚ) ≤ 0.3 * (match pyInt (a.q3.getD (lit "3")) with
       | some conf => ((max 0 (min 5 conf) : ℤ) : ℚ) / 5
       | none => 0.6) := by
    exact mul_nonneg (by norm_num) h3
  linarith

/-- C1: the diagnostic scorer computes `min(1, round(total, 2))` over the
keyword / token-count / clamped-confidence total described by the
specification, its value always lies in [0, 1], and it is a deterministic
function of the answers (same input, same output). -/
theorem score_diagnostic_spec (a : Answers) :
    score_diagnostic a = min 1 (round2 (diag_total a)) ∧
    0 ≤ score_diagnostic a ∧ score_diagnostic a ≤ 1 ∧
    (∀ a₂ : Answers, a₂ = a → score_diagnostic a₂ = score_diagnostic a) := by
  refine ⟨rfl, ?_, ?_, ?_⟩
  · show (0 : ℚ) ≤ min 1 (round2 (diag_total a))
    exact le_min (by norm_num) (round2_nonneg (diag_total_nonneg a))
  · show min 1 (round2 (diag_total a)) ≤ 1
    exact min_le_left _ _
  · intro a₂ h
    rw [h]

/-- Witness for C1 at the specification's own example (score 0.94). -/
theorem score_diagnostic_spec_witness :
    score_diagnostic demoAnswers = score_diagnostic demoAnswers ∧
    score_diagnostic demoAnswers ≤ 1 ∧
    score_diagnostic demoAnswers = 0.94 := by
  refine ⟨(score_diagnostic_spec demoAnswers).2.2.2 demoAnswers rfl,
    (score_diagnostic_spec demoAnswers).2.2.1, ?_⟩
  rw [(score_diagnostic_spec demoAnswers).1]
  have hq1 : (q1Keywords.any fun w => pyIn w (pyLower (demoAnswers.q1.getD []))) = true := by
    decide
  have hq2 : (q2Keywords.any fun w => pyIn w (pyLower (demoAnswers.q2.getD []))) = true := by
    decide
  have hq3 : pyInt (demoAnswers.q3.getD (lit "3")) = some 4 := by decide
  have ht : diag_total demoAnswers = 94 / 100 := by
    unfold diag_total
    simp only [hq1, hq2, hq3]
    norm_num
  rw [ht]
  have hr : round2 ((94 : ℚ) / 100) = 94 / 100 := by
    unfold round2
    have h100 : ((94 : ℚ) / 100) * 100 = ((94 : ℤ) : ℚ) := by norm_num
    rw [h100, round_intCast]
    norm_num
  rw [hr, min_eq_right (by norm_num)]
  norm_num

/-- C2: `policy_map` is the three-tier step function of proficiency alone,
with thresholds at 0.33 and 0.7, and the four boundary points map to the
tiers the specification states; inputs outside [0, 1] are not re-clamped but
fall into whichever threshold bucket the raw value lands in. -/
theorem policy_map_step (p : ℚ) :
    (p < 0.33 → policy_map p = ⟨lit "step_by_step", lit "deep", 2, true⟩) ∧
    (0.33 ≤ p → p < 0.7 → policy_map p = ⟨lit "balanced", lit "medium", 1, true⟩) ∧
    (0.7 ≤ p → policy_map p = ⟨lit "concise", lit "shallow", 1, false⟩) ∧
    policy_map 0.329 = ⟨lit "step_by_step", lit "deep", 2, true⟩ ∧
    policy_map 0.33 = ⟨lit "balanced", lit "medium", 1, true⟩ ∧
    policy_map 0.699 = ⟨lit "balanced", lit "medium", 1, true⟩ ∧
    policy_map 0.7 = ⟨lit "concise", lit "shallow", 1, false⟩ := by
  refine ⟨?_, ?_, ?_, ?_, ?_, ?_, ?_⟩
  · intro h
    unfold policy_map
    rw [if_pos h]
  · intro h1 h2
    unfold policy_map
    rw [if_neg (not_lt.mpr h1), if_pos h2]
  · intro h
    unfold policy_map
    rw [if_neg (not_lt.mpr (by linarith)), if_neg (not_lt.mpr h)]
  · unfold policy_map
    rw [if_pos (by norm_num)]
  · unfold policy_map
    rw [if_neg (by norm_num), if_pos (by norm_num)]
  · unfold policy_map
    rw [if_neg (by norm_num), if_pos (by norm_num)]
  · unfold policy_map
    rw [if_neg (by norm_num), if_neg (by norm_num)]

/-- Witness for C2: a raw value above 1 (not re-clamped) falls in the
concise bucket, and 0.2 falls in the step-by-step bucket. -/
theorem policy_map_step_witness :
    policy_map 1.5 = ⟨lit "concise", lit "shallow", 1, false⟩ ∧
    policy_map 0.2 = ⟨lit "step_by_step", lit "deep", 2, true⟩ :=
  ⟨(policy_map_step 1.5).2.2.1 (by norm_num),
   (policy_map_step 0.2).1 (by norm_num)⟩

/-- C5: the translation adapter's full contract: identity on empty/`"en"`
targets, provider output on success, and on any provider failure the input
text with the literal unavailability note (containing the target language
code) appended; the function is total, so no exception escapes. -/
theorem translate_contract (o : Oracle) (text target : Str) :
    (target = [] → translate o text target = text) ∧
    (target = lit "en" → translate o text target = text) ∧
    (target ≠ [] → target ≠ lit "en" →
      (∀ t, o.translator text target = .ok t → translate o text target = t) ∧
      (∀ u : Unit, o.translator text target = .error u →
        translate o text target =
          text ++ lit "\n\n(Translation to " ++ target ++ lit " not available.)")) := by
  refine ⟨?_, ?_, ?_⟩
  · intro h
    subst h
    simp [translate]
  · intro h
    subst h
    simp [translate]
  · intro h1 h2
    have hcond : (target.isEmpty || target == lit "en") = false := by
      simp only [Bool.or_eq_false_iff]
      constructor
      · simpa [List.isEmpty_iff] using h1
      · simpa [beq_eq_false_iff_ne] using h2
    constructor
    · intro t ht
      simp [translate, hcond, ht]
    · intro u hu
      simp [translate, hcond, hu]

/-- Witness for C5 at concrete inputs: both identity cases, and the
failing-provider case appending the note for target `"fr"`. -/
theorem translate_contract_witness :
    translate oracle0 (lit "hello") [] = lit "hello" ∧
    translate oracle0 (lit "hello") (lit "en") = lit "hello" ∧
    translate oracle0 (lit "hello") (lit "fr") =
      lit "hello" ++ lit "\n\n(Translation to " ++ lit "fr" ++ lit " not available.)" :=
  ⟨(translate_contract oracle0 (lit "hello") []).1 rfl,
   (translate_contract oracle0 (lit "hello") (lit "en")).2.1 rfl,
   ((translate_contract oracle0 (lit "hello") (lit "fr")).2.2 (by decide) (by decide)).2 () rfl⟩

theorem dropWhile_dropWhile_eq (p : Char → Bool) (l : Str) :
    (l.dropWhile p).dropWhile p = l.dropWhile p := by
  rw [List.dropWhile_eq_self_iff]
  intro hl
  simpa using List.dropWhile_get_zero_not p l hl

theorem lstrip_lstrip (s : Str) : lstrip (lstrip s) = lstrip s :=
  dropWhile_dropWhile_eq pyIsSpace s

theorem rstrip_rstrip (s : Str) : rstrip (rstrip s) = rstrip s := by
  unfold rstrip
  rw [List.reverse_reverse, dropWhile_dropWhile_eq]

theorem head_of_pre {l₁ l₂ : Str} (h : l₁ <+: l₂) (hne : l₁ ≠ []) :
    l₂.head? = l₁.head? := by
  obtain ⟨t, rfl⟩ := h
  cases l₁ with
  | nil => exact absurd rfl hne
  | cons a as => rfl

theorem rstrip_pre (s : Str) : rstrip s <+: s := by
  have h : (rstrip s).reverse <:+ s.reverse := by
    unfold rstrip
    rw [List.reverse_reverse]
    exact List.dropWhile_suffix pyIsSpace
  exact List.reverse_suffix.mp h

theorem dropWhile_eq_self_of_head (p : Char → Bool) (w : Str)
    (h : ∀ c, w.head? = some c → p c = false) : w.dropWhile p = w := by
  cases w with
  | nil => rfl
  | cons a as => simp [List.dropWhile_cons, h a rfl]

theorem head_not_space_of_lstrip {t : Str} (h : lstrip t = t) :
    ∀ c, t.head? = some c → pyIsSpace c = false := by
  intro c hc
  cases t with
  | nil => cases hc
  | cons a as =>
    obtain rfl : a = c := by cases hc; rfl
    by_contra hpa
    rw [Bool.not_eq_false] at hpa
    unfold lstrip at h
    rw [List.dropWhile_cons, if_pos hpa] at h
    have hlen := congrArg List.length h
    have hle : (as.dropWhile pyIsSpace).length ≤ as.length :=
      (List.dropWhile_suffix pyIsSpace).length_le
    simp at hlen
    omega

theorem lstrip_rstrip {t : Str} (h : lstrip t = t) :
    lstrip (rstrip t) = rstrip t := by
  cases hr : rstrip t with
  | nil => rfl
  | cons a as =>
    apply dropWhile_eq_self_of_head
    intro c hc
    obtain rfl : a = c := by cases hc; rfl
    have hpre : (a :: as : Str) <+: t := by
      rw [← hr]
      exact rstrip_pre t
    have hh : t.head? = some a := by
      rw [head_of_pre hpre (by simp)]
      rfl
    exact head_not_space_of_lstrip h a hh

theorem pyStrip_idem (s : Str) : pyStrip (pyStrip s) = pyStrip s := by
  unfold pyStrip
  rw [lstrip_rstrip (lstrip_lstrip s), rstrip_rstrip]

theorem isInfix_ext {l l₁ : Str} (h : l <:+: l₁) (l₂ : Str) : l <:+: l₁ ++ l₂ := by
  obtain ⟨s, t, rfl⟩ := h
  exact ⟨s, t ++ l₂, by simp⟩

/-- C8: prompt building is pure string construction: byte-identical output on
identical inputs, output invariant under stripping (it is the stripped
template), empty `sources` renders exactly the template with the sources
section omitted entirely (so no "Sources:" section appears), while any
nonempty sources list does put a "Sources:" heading in the block. -/
theorem build_prompt_pure (p : Profile) (q : Str) (s : List SourceResult) :
    (∀ p₂ q₂ s₂, p₂ = p → q₂ = q → s₂ = s → build_prompt p₂ q₂ s₂ = build_prompt p q s) ∧
    pyStrip (build_prompt p q s) = build_prompt p q s ∧
    build_prompt p q [] = prompt_without_sources p q ∧
    (∀ (src : SourceResult) (rest : List SourceResult),
      pyIn (lit "Sources:") (sourcesBlock (src :: rest)) = true) := by
  refine ⟨?_, ?_, ?_, ?_⟩
  · intro p₂ q₂ s₂ hp hq hs
    rw [hp, hq, hs]
  · exact pyStrip_idem _
  · unfold build_prompt prompt_without_sources
    simp [sourcesBlock]
  · intro src rest
    have h1 : lit "Sources:" <:+: lit "\n\nSources:\n" := by decide
    have h2 : lit "Sources:" <:+:
        lit "\n\nSources:\n" ++ joinWith (lit "\n")
          ((src :: rest).map (fun e => lit "- " ++ e.title ++ lit ": " ++ e.link)) :=
      isInfix_ext h1 _
    show decide _ = true
    exact decide_eq_true h2

/-- Witness for C8: determinism and the empty-sources rendering at a
concrete profile and question. -/
theorem build_prompt_pure_witness :
    build_prompt (defaultProfile (lit "u") (lit "en")) (lit "hi") [] =
      build_prompt (defaultProfile (lit "u") (lit "en")) (lit "hi") [] ∧
    build_prompt (defaultProfile (lit "u") (lit "en")) (lit "hi") [] =
      prompt_without_sources (defaultProfile (lit "u") (lit "en")) (lit "hi") :=
  ⟨(build_prompt_pure (defaultProfile (lit "u") (lit "en")) (lit "hi") []).1 _ _ _ rfl rfl rfl,
   (build_prompt_pure (defaultProfile (lit "u") (lit "en")) (lit "hi") []).2.2.1⟩

/-- C9: the student-model functions duplicated across `app.py` and
`models/ai_model.py` are extensionally equal. -/
theorem duplicated_student_model_agree :
    (∀ a : Answers, score_diagnostic a = AiModel.score_diagnostic a) ∧
    (∀ p : ℚ, policy_map p = AiModel.policy_map p) :=
  ⟨fun _ => rfl, fun _ => rfl⟩

theorem translate_congr {o₁ o₂ : Oracle} (h : o₁.translator = o₂.translator)
    (text target : Str) : translate o₁ text target = translate o₂ text target := by
  unfold translate
  rw [h]

theorem get_current_datetime_congr {o₁ o₂ : Oracle} (h : o₁.now = o₂.now) :
    get_current_datetime o₁ = get_current_datetime o₂ := by
  unfold get_current_datetime
  rw [h]

theorem get_real_time_news_congr {o₁ o₂ : Oracle}
    (h1 : o₁.newsConfigured = o₂.newsConfigured)
    (h2 : o₁.getEverything = o₂.getEverything)
    (h3 : o₁.getTopHeadlines = o₂.getTopHeadlines)
    (query : Option Str) (country lang category : Str) :
    get_real_time_news o₁ query country lang category =
      get_real_time_news o₂ query country lang category := by
  unfold get_real_time_news
  rw [h1, h2, h3]

theorem newsReply_congr {o₁ o₂ : Oracle}
    (h1 : o₁.newsConfigured = o₂.newsConfigured)
    (h2 : o₁.getEverything = o₂.getEverything)
    (h3 : o₁.getTopHeadlines = o₂.getTopHeadlines)
    (message_lower lang : Str) :
    newsReply o₁ message_lower lang = newsReply o₂ message_lower lang := by
  unfold newsReply
  rw [get_real_time_news_congr h1 h2 h3, get_real_time_news_congr h1 h2 h3,
    get_real_time_news_congr h1 h2 h3]

/-- C4: an error result arises exactly when the request reaches the general
(search/prompt/generation) path and the generation call fails, and then it
is the bare error record carrying only that message; in particular a search
or translation failure (both absorbed by their adapters) never yields an
error result. -/
theorem generation_error_only (o : Oracle) (store : Store) (user_id message lang : Str) :
    ∀ e, generate_reply o store user_id message lang = .error e ↔
      (timeTrigger (pyLower message) = false ∧ newsTrigger (pyLower message) = false ∧
       o.gen (build_prompt (request_profile store user_id lang) message
         (request_sources o message)) = .error e) := by
  intro e
  unfold generate_reply
  by_cases ht : timeTrigger (pyLower message) = true
  · rw [if_pos ht]
    simp [ht]
  · have ht' : timeTrigger (pyLower message) = false := by
      simpa using ht
    rw [if_neg ht]
    by_cases hn : newsTrigger (pyLower message) = true
    · rw [if_pos hn]
      simp [hn]
    · have hn' : newsTrigger (pyLower message) = false := by
        simpa using hn
      rw [if_neg hn]
      cases hg : o.gen (build_prompt (request_profile store user_id lang) message
          (request_sources o message)) with
      | error e₂ => simp [ht', hn']
      | ok t => simp [ht', hn']

/-- Witness for C4: with every collaborator failing, a plain message yields
exactly the generation error record. -/
theorem generation_error_only_witness :
    generate_reply oracle0 [] (lit "u") (lit "hello") (lit "en") = .error (lit "boom") :=
  (generation_error_only oracle0 [] (lit "u") (lit "hello") (lit "en") (lit "boom")).mpr
    ⟨by decide, by decide, rfl⟩

/-- C6: a message containing "time" or "date" (lower-cased) is answered
directly from the clock — the reply is built from the current timestamp in
`YYYY-MM-DD HH:MM:SS` format, sources are empty — and the result does not
depend on the generation, search, or news collaborators at all (so no
generation call is made); the branch is taken regardless of any news
trigger also present. -/
theorem time_branch (o : Oracle) (store : Store) (user_id message lang : Str)
    (h : timeTrigger (pyLower message) = true) :
    generate_reply o store user_id message lang =
      .ok ⟨translate o (lit "Current date and time is: " ++ pad4 o.now.year ++ lit "-"
              ++ pad2 o.now.month ++ lit "-" ++ pad2 o.now.day ++ lit " "
              ++ pad2 o.now.hour ++ lit ":" ++ pad2 o.now.minute ++ lit ":"
              ++ pad2 o.now.second)
            (request_profile store user_id lang).language,
          lit "Current date and time is: " ++ pad4 o.now.year ++ lit "-"
            ++ pad2 o.now.month ++ lit "-" ++ pad2 o.now.day ++ lit " "
            ++ pad2 o.now.hour ++ lit ":" ++ pad2 o.now.minute ++ lit ":"
            ++ pad2 o.now.second,
          [], request_profile store user_id lang⟩ ∧
    (∀ o₂ : Oracle, o₂.now = o.now → o₂.translator = o.translator →
      generate_reply o₂ store user_id message lang =
        generate_reply o store user_id message lang) := by
  constructor
  · unfold generate_reply
    rw [if_pos h]
    simp [get_current_datetime, fmtDateTime, List.append_assoc]
  · intro o₂ h1 h2
    unfold generate_reply
    rw [if_pos h, if_pos h, get_current_datetime_congr h1, translate_congr h2]

/-- Witness for C6: `"what time is it"` with the all-failing oracle. -/
theorem time_branch_witness :
    generate_reply oracle0 [] (lit "u") (lit "what time is it") (lit "en") =
      .ok ⟨translate oracle0 (lit "Current date and time is: " ++ pad4 oracle0.now.year
             ++ lit "-" ++ pad2 oracle0.now.month ++ lit "-" ++ pad2 oracle0.now.day
             ++ lit " " ++ pad2 oracle0.now.hour ++ lit ":" ++ pad2 oracle0.now.minute
             ++ lit ":" ++ pad2 oracle0.now.second)
            (request_profile [] (lit "u") (lit "en")).language,
          lit "Current date and time is: " ++ pad4 oracle0.now.year ++ lit "-"
            ++ pad2 oracle0.now.month ++ lit "-" ++ pad2 oracle0.now.day ++ lit " "
            ++ pad2 oracle0.now.hour ++ lit ":" ++ pad2 oracle0.now.minute ++ lit ":"
            ++ pad2 oracle0.now.second,
          [], request_profile [] (lit "u") (lit "en")⟩ :=
  (time_branch oracle0 [] (lit "u") (lit "what time is it") (lit "en") (by decide)).1

/-- C7: a message matching the news trigger (and not the earlier time/date
trigger) returns the news adapter's text verbatim as both `reply` and
`reply_en`, with empty sources; the result does not depend on the
generation, search, or translation collaborators (no translation is applied
in this branch and the message never reaches the generation pipeline). -/
theorem news_branch (o : Oracle) (store : Store) (user_id message lang : Str)
    (h1 : timeTrigger (pyLower message) = false)
    (h2 : newsTrigger (pyLower message) = true) :
    generate_reply o store user_id message lang =
      .ok ⟨newsReply o (pyLower message) lang, newsReply o (pyLower message) lang, [],
           request_profile store user_id lang⟩ ∧
    (∀ o₂ : Oracle, o₂.newsConfigured = o.newsConfigured →
      o₂.getEverything = o.getEverything → o₂.getTopHeadlines = o.getTopHeadlines →
      generate_reply o₂ store user_id message lang =
        generate_reply o store user_id message lang) := by
  have htn : ¬ (timeTrigger (pyLower message) = true) := by simp [h1]
  constructor
  · unfold generate_reply
    rw [if_neg htn, if_pos h2]
  · intro o₂ e1 e2 e3
    unfold generate_reply
    rw [if_neg htn, if_neg htn, if_pos h2, if_pos h2, newsReply_congr e1 e2 e3]

/-- Witness for C7: the message `"news"` with the all-failing oracle. -/
theorem news_branch_witness :
    generate_reply oracle0 [] (lit "u") (lit "news") (lit "en") =
      .ok ⟨newsReply oracle0 (pyLower (lit "news")) (lit "en"),
           newsReply oracle0 (pyLower (lit "news")) (lit "en"), [],
           request_profile [] (lit "u") (lit "en")⟩ :=
  (news_branch oracle0 [] (lit "u") (lit "news") (lit "en") (by decide) (by decide)).1

/-- C3: every reachable profile-store state satisfies the invariant that each
stored profile's policy is `policy_map` of its stored proficiency; the
transient default profile synthesized on the chat path satisfies the same
relation with proficiency 0.5. -/
theorem store_invariant :
    (∀ s : Store, Reachable s → ∀ uid p, getProfile s uid = some p →
      p.policy = policy_map p.proficiency) ∧
    (∀ uid lang : Str, (defaultProfile uid lang).policy =
        policy_map (defaultProfile uid lang).proficiency ∧
      (defaultProfile uid lang).proficiency = 0.5) := by
  constructor
  · have key : ∀ s : Store, Reachable s → StoreInv s := by
      intro s hs
      induction hs with
      | init => intro e he; cases he
      | diag payload hr ih =>
        intro e he
        simp only [diagnostic_route, putProfile] at he
        rcases List.mem_cons.mp he with h | h
        · rw [h]
        · exact ih e (List.mem_of_mem_filter h)
      | chat o user_id message lang hr ih => exact ih
      | del uid hr ih =>
        intro e he
        exact ih e (List.mem_of_mem_filter he)
    intro s hs uid p hp
    unfold getProfile at hp
    cases hf : s.find? (fun e => e.1 == uid) with
    | none => rw [hf] at hp; cases hp
    | some e =>
      rw [hf] at hp
      have he2 : e.2 = p := by
        simpa using hp
      rw [← he2]
      exact key s hs e (List.mem_of_find?_eq_some hf)
  · intro uid lang
    exact ⟨rfl, rfl⟩

/-- Witness for C3: the store reached by one diagnostic submission satisfies
the invariant at its stored profile. -/
theorem store_invariant_witness :
    (⟨lit "u1", score_diagnostic demoAnswers, policy_map (score_diagnostic demoAnswers),
        lit "en"⟩ : Profile).policy =
      policy_map (⟨lit "u1", score_diagnostic demoAnswers,
        policy_map (score_diagnostic demoAnswers), lit "en"⟩ : Profile).proficiency :=
  store_invariant.1 demoStore
    (Reachable.diag ⟨some (lit "u1"), demoAnswers, some (lit "en")⟩ Reachable.init)
    (lit "u1") _ rfl

/-- C10: for a stored user and a message that does not reach the news branch,
the request's `lang` argument has no effect on the result: the translation
target always comes from the stored profile's language field. -/
theorem lang_noninterference (o : Oracle) (store : Store) (user_id message : Str)
    (p : Profile) (hp : getProfile store user_id = some p)
    (hb : timeTrigger (pyLower message) = true ∨ newsTrigger (pyLower message) = false) :
    ∀ lang₁ lang₂, generate_reply o store user_id message lang₁ =
      generate_reply o store user_id message lang₂ := by
  have hrp : ∀ lang, request_profile store user_id lang = p := by
    intro lang
    unfold request_profile
    rw [hp]
    rfl
  intro lang₁ lang₂
  unfold generate_reply
  by_cases ht : timeTrigger (pyLower message) = true
  · rw [if_pos ht, if_pos ht, hrp lang₁, hrp lang₂]
  · have hn : newsTrigger (pyLower message) = false := by
      rcases hb with h | h
      · exact absurd h ht
      · exact h
    have hnn : ¬ (newsTrigger (pyLower message) = true) := by simp [hn]
    rw [if_neg ht, if_neg ht, if_neg hnn, if_neg hnn, hrp lang₁, hrp lang₂]

/-- Witness for C10: with a stored profile, the same plain message under two
different request languages yields identical results. -/
theorem lang_noninterference_witness :
    generate_reply oracle0 demoStore (lit "u1") (lit "hello") (lit "hi") =
      generate_reply oracle0 demoStore (lit "u1") (lit "hello") (lit "de") :=
  lang_noninterference oracle0 demoStore (lit "u1") (lit "hello")
    ⟨lit "u1", score_diagnostic demoAnswers, policy_map (score_diagnostic demoAnswers),
      lit "en"⟩ rfl (Or.inr (by decide)) (lit "hi") (lit "de")

end AITutor
